import Mathlib

/-!
# Verification of the cryoCommand Risk Scoring Engine

Shallow embedding of `src/risk-engine/risk-engine.service.ts`
(`RiskEngineService`) and the document schemas it reads and writes.

Modelling conventions:
* timestamps are integers (milliseconds since epoch, as `Date.getTime()`);
* temperatures, humidities and coordinates are rationals;
* JavaScript `Math.round` is `⌊q + 1/2⌋` (round half toward +∞), `jsRound`;
* reason strings are modelled by an inductive `Reason` carrying the exact
  numeric payloads that the template strings interpolate;
* the Haversine great-circle metric is floating-point trigonometry in the
  source, so the pipeline is parameterised by the distance function
  `hav : LatLon → LatLon → ℚ`; every claim below depends only on the
  cumulative distance value, never on trigonometric identities;
* the MongoDB aggregation pipelines are translated to list filters and
  folds over an explicit `DataState`; `prisma….create` appends to the
  corresponding snapshot log;
* the population standard deviation is only ever compared against 3 and
  printed, so it is carried as its square (`stdDevSq > 9 ↔ stdDev > 3`),
  avoiding an irrational square root.
-/

namespace CryoCommand

/-- JavaScript `Math.round`: round half toward positive infinity. -/
def jsRound (q : ℚ) : ℤ := ⌊q + 1/2⌋

/-- A latitude/longitude pair in degrees. -/
structure LatLon where
  latitude : ℚ
  longitude : ℚ
  deriving Repr, DecidableEq

/-- `SensorReadingDocument` (src/vehicles/schemas/sensor-reading.schema.ts):
the document has both its own `id` (the reading's UUID) and a `vehicle_id`
reference to the vehicle's `visibleId`. -/
structure SensorReading where
  id : String
  vehicle_id : String
  temperature : ℚ
  humidity : ℚ
  latitude : ℚ
  longitude : ℚ
  timestamp : ℤ
  deriving Repr, DecidableEq

/-- The fields of `VehicleDocument` that the risk engine reads. -/
structure Vehicle where
  visibleId : String
  min_temp : ℚ
  max_temp : ℚ
  last_update : ℤ
  deriving Repr, DecidableEq

/-- The fields of the vehicle `Alert` document that the risk engine reads. -/
structure Alert where
  vehicle_id : String
  severity : String
  is_resolved : Bool
  created_at : ℤ
  deriving Repr, DecidableEq

/-- The fields of `TripDocument` that the risk engine reads. -/
structure Trip where
  visibleId : String
  vehicle_id : String
  status : String
  planned_end : ℤ
  actual_end : Option ℤ
  avg_temp_recorded : Option ℚ
  deriving Repr, DecidableEq

/-- The fields of `TripAlertDocument` that the risk engine reads. -/
structure TripAlert where
  trip_id : String
  is_resolved : Bool
  deriving Repr, DecidableEq

/-- The fields of `TripReadingDocument` that the risk engine reads. -/
structure TripReading where
  trip_id : String
  temperature : ℚ
  timestamp : ℤ
  deriving Repr, DecidableEq

/-- `LOW`, `MEDIUM`, `HIGH`. -/
inductive RiskLevel where
  | LOW
  | MEDIUM
  | HIGH
  deriving Repr, DecidableEq

/-- The reason strings produced by the factor calculators, with the numeric
payloads interpolated into the template strings. -/
inductive Reason where
  | noRecentTelemetry
  | highTempVariance (variance stdDevSq : ℚ)
  | moderateTempVariance (variance : ℚ)
  | alertDensity (total critical warning : Nat)
  | staleData (roundedGapMinutes : ℤ)
  | unusualDistance (distanceKm : ℚ)
  | stationaryVehicle
  | noGpsData
  | noTempReadings
  | tempOutOfRange (avgTemp deviation minTemp maxTemp : ℚ)
  | tempNearEdge (avgTemp minTemp maxTemp : ℚ)
  | violations (total unresolved : Nat)
  | tripDelayed (delayMinutes : ℤ)
  | tempSpikes (count : Nat) (maxSpike : ℚ)
  | allVehicleMetricsNormal
  | allTripMetricsNormal
  deriving Repr, DecidableEq

/-- `VehicleRiskSnapshotDocument`: note it retains the `reasons` list. -/
structure VehicleRiskSnapshot where
  visibleId : String
  vehicle_id : String
  score : ℤ
  level : RiskLevel
  reasons : List Reason
  calculated_at : ℤ
  deriving Repr, DecidableEq

/-- `TripRiskSnapshotDocument`: the schema has no `reasons` field and
`storeTripRiskSnapshot` stores none. -/
structure TripRiskSnapshot where
  visibleId : String
  trip_id : String
  score : ℤ
  level : RiskLevel
  predicted_eta : ℤ
  expected_delay_minutes : ℤ
  calculated_at : ℤ
  deriving Repr, DecidableEq

/-- The collections visible to the risk engine through Prisma. -/
structure DataState where
  vehicles : List Vehicle
  trips : List Trip
  sensorReadings : List SensorReading
  alerts : List Alert
  tripAlerts : List TripAlert
  tripReadings : List TripReading
  vehicleRiskSnapshots : List VehicleRiskSnapshot
  tripRiskSnapshots : List TripRiskSnapshot
  deriving Repr, DecidableEq

/-- `(score, reason)` returned by a factor calculator. -/
structure FactorResult where
  score : ℤ
  reason : Option Reason
  deriving Repr, DecidableEq

/-- `(score, reason, delayMinutes)` returned by `calculateDelayFactor`. -/
structure DelayFactorResult where
  score : ℤ
  reason : Option Reason
  delayMinutes : ℤ
  deriving Repr, DecidableEq

/-- The error taxonomy relevant to the engine (`NotFoundException`). -/
inductive RiskError where
  | notFound
  deriving Repr, DecidableEq

/-- `RiskScoreResponseDto`. -/
structure RiskScoreResponse where
  score : ℤ
  level : RiskLevel
  reasons : List Reason
  deriving Repr, DecidableEq

/-- `TripRiskForecastResponseDto`. -/
structure TripRiskForecastResponse where
  score : ℤ
  level : RiskLevel
  reasons : List Reason
  predicted_eta : ℤ
  expected_delay_minutes : ℤ
  deriving Repr, DecidableEq

/-- Insert into a list sorted ascending by the integer key. -/
def insertByKey {α : Type} (key : α → ℤ) (x : α) : List α → List α
  | [] => [x]
  | y :: ys => if key x ≤ key y then x :: y :: ys else y :: insertByKey key x ys

/-- Sort ascending by an integer key (`orderBy: { timestamp: 'asc' }`). -/
def sortByKey {α : Type} (key : α → ℤ) : List α → List α
  | [] => []
  | x :: xs => insertByKey key x (sortByKey key xs)

/-- `$min` over a non-empty group, written head-plus-tail. -/
def listMin (a : ℚ) (l : List ℚ) : ℚ := l.foldl min a

/-- `$max` over a non-empty group, written head-plus-tail. -/
def listMax (a : ℚ) (l : List ℚ) : ℚ := l.foldl max a

/-- Population variance `Σ (x−μ)² / n`, the square of `$stdDevPop`. -/
def popVariance (l : List ℚ) : ℚ :=
  let n : ℚ := l.length
  let mean := l.sum / n
  (l.map (fun t => (t - mean) ^ 2)).sum / n

/-- Sum of a metric over consecutive pairs (the `for (i = 1; …)` loop). -/
def pairwiseSum (hav : LatLon → LatLon → ℚ) : List LatLon → ℚ
  | [] => 0
  | [_] => 0
  | p :: q :: rest => hav p q + pairwiseSum hav (q :: rest)

/-- Six hours in milliseconds. -/
def sixHoursMs : ℤ := 6 * 60 * 60 * 1000

/-- Twenty-four hours in milliseconds. -/
def twentyFourHoursMs : ℤ := 24 * 60 * 60 * 1000

/-- The score arithmetic of `calculateTempVariance` after the aggregation:
piecewise on the min-max range, plus 5 (capped at 25) when the population
standard deviation exceeds 3 (`stdDevSq > 9`). -/
def tempVarianceScore (variance stdDevSq : ℚ) : ℤ :=
  let base : ℤ :=
    if 10 < variance then 25
    else if 5 < variance then jsRound (variance / 10 * 25)
    else jsRound (variance / 10 * 15)
  if 9 < stdDevSq then min (base + 5) 25 else base

/-- `calculateTempVariance`, translated from the source: the `$match` stage
filters `{ id: vehicleId, timestamp: { $gte: sixHoursAgo } }`, i.e. it
compares the reading's own `id` field — not `vehicle_id` — against the
vehicle identifier. -/
def calculateTempVariance (now : ℤ) (st : DataState) (vehicleId : String) :
    FactorResult :=
  let sixHoursAgo := now - sixHoursMs
  let matched := st.sensorReadings.filter
    (fun r => r.id == vehicleId && sixHoursAgo ≤ r.timestamp)
  match matched.map (fun r => r.temperature) with
  | [] => ⟨5, some .noRecentTelemetry⟩
  | t :: ts =>
    let variance := listMax t ts - listMin t ts
    let stdDevSq := popVariance (t :: ts)
    let score := tempVarianceScore variance stdDevSq
    ⟨score,
      if 15 ≤ score then some (.highTempVariance variance stdDevSq)
      else if 8 ≤ score then some (.moderateTempVariance variance)
      else none⟩

/-- `calculateAlertFactor`: alerts for the vehicle in the trailing 24 hours,
grouped by severity; `min(critical*6 + warning*3, 30)`; reason iff any alert
(of any severity) matched. -/
def calculateAlertFactor (now : ℤ) (st : DataState) (vehicleId : String) :
    FactorResult :=
  let dayAgo := now - twentyFourHoursMs
  let recent := st.alerts.filter
    (fun a => a.vehicle_id == vehicleId && dayAgo ≤ a.created_at)
  let criticalCount := (recent.filter (fun a => a.severity == "critical")).length
  let warningCount := (recent.filter (fun a => a.severity == "warning")).length
  let totalCount := recent.length
  let score : ℤ := ((min (criticalCount * 6 + warningCount * 3) 30 : Nat) : ℤ)
  ⟨score,
    if 0 < totalCount then some (.alertDensity totalCount criticalCount warningCount)
    else none⟩

/-- `calculateUpdateGap`: staleness of `vehicle.last_update` in minutes. -/
def calculateUpdateGap (now lastUpdate : ℤ) : FactorResult :=
  let gapMinutes : ℚ := ((now - lastUpdate : ℤ) : ℚ) / (1000 * 60)
  let score : ℤ :=
    if 60 < gapMinutes then 20
    else if 30 < gapMinutes then 15
    else if 15 < gapMinutes then 10
    else if 5 < gapMinutes then 5
    else 0
  ⟨score, if 10 ≤ score then some (.staleData (jsRound gapMinutes)) else none⟩

/-- The GPS query of `calculateDistanceFactor`: readings of the vehicle in
the trailing 6 hours, sorted ascending by timestamp, first 500, projected to
coordinates. -/
def gpsPoints (now : ℤ) (st : DataState) (vehicleId : String) : List LatLon :=
  let sixHoursAgo := now - sixHoursMs
  ((sortByKey (fun r => r.timestamp)
      (st.sensorReadings.filter
        (fun r => r.vehicle_id == vehicleId && sixHoursAgo ≤ r.timestamp))).take 500).map
    (fun r => ⟨r.latitude, r.longitude⟩)

/-- The score arithmetic of `calculateDistanceFactor` for ≥ 2 points. -/
def distanceScore (totalDistanceKm : ℚ) (count : Nat) : ℤ :=
  if 500 < totalDistanceKm then 25
  else if 300 < totalDistanceKm then 15
  else if totalDistanceKm < 1 ∧ 10 < count then 10
  else jsRound (totalDistanceKm / 500 * 10)

/-- `calculateDistanceFactor`, parameterised by the Haversine metric. -/
def calculateDistanceFactor (hav : LatLon → LatLon → ℚ) (now : ℤ)
    (st : DataState) (vehicleId : String) : FactorResult :=
  let readings := gpsPoints now st vehicleId
  if readings.length < 2 then
    ⟨5, if readings.length == 0 then some .noGpsData else none⟩
  else
    let totalDistanceKm := pairwiseSum hav readings
    let score := distanceScore totalDistanceKm readings.length
    ⟨score,
      if 15 ≤ score then some (.unusualDistance totalDistanceKm)
      else if 10 ≤ score then some .stationaryVehicle
      else none⟩

/-- The score arithmetic of `calculateTempDeviation` once the deviation
outside the range, the distance to the nearest range edge and the range
width are known. -/
def tempDeviationScore (deviation distToEdge range : ℚ) : ℤ :=
  if deviation = 0 then
    if distToEdge < range * (1/10) then 10 else 0
  else if 5 < deviation then 30
  else if 2 < deviation then jsRound (deviation / 5 * 30)
  else jsRound (deviation / 5 * 15)

/-- `calculateTempDeviation`: the trip's recorded average temperature versus
the vehicle's acceptable range. -/
def calculateTempDeviation (avgTemp : Option ℚ) (minTemp maxTemp : ℚ) :
    FactorResult :=
  match avgTemp with
  | none => ⟨5, some .noTempReadings⟩
  | some avg =>
    let range := maxTemp - minTemp
    let deviation : ℚ :=
      if avg < minTemp then minTemp - avg
      else if maxTemp < avg then avg - maxTemp
      else 0
    let score : ℤ :=
      tempDeviationScore deviation (min |avg - minTemp| |avg - maxTemp|) range
    ⟨score,
      if 0 < deviation then some (.tempOutOfRange avg deviation minTemp maxTemp)
      else if 10 ≤ score then some (.tempNearEdge avg minTemp maxTemp)
      else none⟩

/-- `calculateViolationFactor`: trip alerts split resolved/unresolved,
`min(unresolved*5 + resolved*2, 25)`. -/
def calculateViolationFactor (st : DataState) (tripId : String) : FactorResult :=
  let unresolvedAlerts :=
    (st.tripAlerts.filter (fun a => a.trip_id == tripId && !a.is_resolved)).length
  let totalAlerts := (st.tripAlerts.filter (fun a => a.trip_id == tripId)).length
  let resolvedCount := totalAlerts - unresolvedAlerts
  let score : ℤ := ((min (unresolvedAlerts * 5 + resolvedCount * 2) 25 : Nat) : ℤ)
  ⟨score,
    if 0 < totalAlerts then some (.violations totalAlerts unresolvedAlerts)
    else none⟩

/-- The score arithmetic of `calculateDelayFactor`. -/
def delayScore (delayMinutes : ℤ) : ℤ :=
  if 120 < delayMinutes then 25
  else if 60 < delayMinutes then 20
  else if 30 < delayMinutes then 15
  else if 10 < delayMinutes then jsRound ((delayMinutes : ℚ) / 60 * 15)
  else 0

/-- `calculateDelayFactor`: for an active trip, the (rounded) overshoot of
`now` past `planned_end`; otherwise the overshoot of `actual_end` past
`planned_end` when positive; otherwise 0. -/
def calculateDelayFactor (plannedEnd : ℤ) (actualEnd : Option ℤ)
    (status : String) (now : ℤ) : DelayFactorResult :=
  let delayMinutes : ℤ :=
    if status == "active" then
      if plannedEnd < now then jsRound (((now - plannedEnd : ℤ) : ℚ) / (1000 * 60))
      else 0
    else
      match actualEnd with
      | some ae =>
        if plannedEnd < ae then jsRound (((ae - plannedEnd : ℤ) : ℚ) / (1000 * 60))
        else 0
      | none => 0
  let score := delayScore delayMinutes
  ⟨score,
    if 0 < delayMinutes then some (.tripDelayed delayMinutes) else none,
    delayMinutes⟩

/-- The score arithmetic of `calculateTempSpikes` for ≥ 2 readings. -/
def spikeScore (spikeCount : Nat) (maxSpike : ℚ) : ℤ :=
  let base : ℤ :=
    if 10 < spikeCount then 20
    else if 5 < spikeCount then 15
    else if 0 < spikeCount then jsRound ((spikeCount : ℚ) / 5 * 10)
    else 0
  if 10 < maxSpike then min (base + 5) 20 else base

/-- Absolute differences of consecutive elements. -/
def consecutiveDiffs : List ℚ → List ℚ
  | [] => []
  | [_] => []
  | x :: y :: rest => |y - x| :: consecutiveDiffs (y :: rest)

/-- `calculateTempSpikes`: trip readings sorted by time (first 5000);
consecutive jumps above 3°C are spikes; the largest such jump adds risk. -/
def calculateTempSpikes (st : DataState) (tripId : String) : FactorResult :=
  let readings :=
    ((sortByKey (fun r => r.timestamp)
        (st.tripReadings.filter (fun r => r.trip_id == tripId))).take 5000).map
      (fun r => r.temperature)
  if readings.length < 2 then ⟨0, none⟩
  else
    let spikes := (consecutiveDiffs readings).filter (fun d => 3 < d)
    let spikeCount := spikes.length
    let maxSpike := spikes.foldl max 0
    let score := spikeScore spikeCount maxSpike
    ⟨score,
      if 0 < spikeCount then some (.tempSpikes spikeCount maxSpike) else none⟩

/-- `scoreToLevel`. -/
def scoreToLevel (score : ℤ) : RiskLevel :=
  if 67 ≤ score then .HIGH
  else if 34 ≤ score then .MEDIUM
  else .LOW

/-- The body of `getVehicleRiskScore` after the vehicle lookup succeeded:
the four factors, the capped sum (each factor score is an integer, so
`Math.round` is the identity on the total), the level, the reasons in
factor order with the default reason when empty, the response, and the
snapshot that `storeVehicleRiskSnapshot` writes. -/
def vehicleRiskCore (hav : LatLon → LatLon → ℚ) (now : ℤ) (freshId : String)
    (st : DataState) (vehicleId : String) (vehicle : Vehicle) :
    RiskScoreResponse × VehicleRiskSnapshot :=
  let f1 := calculateTempVariance now st vehicleId
  let f2 := calculateAlertFactor now st vehicleId
  let f3 := calculateUpdateGap now vehicle.last_update
  let f4 := calculateDistanceFactor hav now st vehicleId
  let totalScore := f1.score + f2.score + f3.score + f4.score
  let score := min totalScore 100
  let level := scoreToLevel score
  let collected := [f1.reason, f2.reason, f3.reason, f4.reason].filterMap id
  let reasons := if collected.isEmpty then [Reason.allVehicleMetricsNormal] else collected
  (⟨score, level, reasons⟩,
   ⟨freshId, vehicleId, score, level, reasons, now⟩)

/-- `getVehicleRiskScore` (`ComputeVehicleRisk`): lookup by `visibleId`,
`NotFoundException` when absent, otherwise score, persist, return. The
returned state is the database after the call. -/
def getVehicleRiskScore (hav : LatLon → LatLon → ℚ) (now : ℤ) (freshId : String)
    (st : DataState) (vehicleId : String) :
    Except RiskError RiskScoreResponse × DataState :=
  match st.vehicles.find? (fun v => v.visibleId == vehicleId) with
  | none => (.error .notFound, st)
  | some vehicle =>
    let rs := vehicleRiskCore hav now freshId st vehicleId vehicle
    (.ok rs.1, { st with vehicleRiskSnapshots := st.vehicleRiskSnapshots ++ [rs.2] })

/-- The body of `getTripRiskForecast` after the trip lookup succeeded:
vehicle fetched best-effort (defaults −25/−15), the four trip factors, the
capped sum, the predicted ETA, the response, and the snapshot that
`storeTripRiskSnapshot` writes — which has no `reasons` field. -/
def tripForecastCore (now : ℤ) (freshId : String) (st : DataState)
    (tripId : String) (trip : Trip) :
    TripRiskForecastResponse × TripRiskSnapshot :=
  let vehicle := st.vehicles.find? (fun v => v.visibleId == trip.vehicle_id)
  let f1 := calculateTempDeviation trip.avg_temp_recorded
    ((vehicle.map (fun v => v.min_temp)).getD (-25))
    ((vehicle.map (fun v => v.max_temp)).getD (-15))
  let f2 := calculateViolationFactor st tripId
  let f3 := calculateDelayFactor trip.planned_end trip.actual_end trip.status now
  let f4 := calculateTempSpikes st tripId
  let totalScore := f1.score + f2.score + f3.score + f4.score
  let score := min totalScore 100
  let level := scoreToLevel score
  let collected := [f1.reason, f2.reason, f3.reason, f4.reason].filterMap id
  let reasons := if collected.isEmpty then [Reason.allTripMetricsNormal] else collected
  let expectedDelayMinutes := f3.delayMinutes
  let predictedEta : ℤ :=
    if trip.status == "active" then
      trip.planned_end + expectedDelayMinutes * 60 * 1000
    else
      match trip.actual_end with
      | some ae => ae
      | none => trip.planned_end
  (⟨score, level, reasons, predictedEta, expectedDelayMinutes⟩,
   ⟨freshId, tripId, score, level, predictedEta, expectedDelayMinutes, now⟩)

/-- `getTripRiskForecast` (`ComputeTripRisk`). -/
def getTripRiskForecast (now : ℤ) (freshId : String) (st : DataState)
    (tripId : String) :
    Except RiskError TripRiskForecastResponse × DataState :=
  match st.trips.find? (fun t => t.visibleId == tripId) with
  | none => (.error .notFound, st)
  | some trip =>
    let rs := tripForecastCore now freshId st tripId trip
    (.ok rs.1, { st with tripRiskSnapshots := st.tripRiskSnapshots ++ [rs.2] })

/-- The Temperature Variance Factor as the spec words it: the statistics are
taken over the sensor readings belonging to the given vehicle (filter on the
`vehicle_id` reference) in the trailing 6 hours; the arithmetic is identical
to `calculateTempVariance`. -/
def tempVarianceByVehicleRef (now : ℤ) (st : DataState) (vehicleId : String) :
    FactorResult :=
  let sixHoursAgo := now - sixHoursMs
  let matched := st.sensorReadings.filter
    (fun r => r.vehicle_id == vehicleId && sixHoursAgo ≤ r.timestamp)
  match matched.map (fun r => r.temperature) with
  | [] => ⟨5, some .noRecentTelemetry⟩
  | t :: ts =>
    let variance := listMax t ts - listMin t ts
    let stdDevSq := popVariance (t :: ts)
    let score := tempVarianceScore variance stdDevSq
    ⟨score,
      if 15 ≤ score then some (.highTempVariance variance stdDevSq)
      else if 8 ≤ score then some (.moderateTempVariance variance)
      else none⟩

/-! ## Concrete fixtures used by witnesses and counterexamples -/

/-- A database with no documents at all. -/
def emptyState : DataState := ⟨[], [], [], [], [], [], [], []⟩

/-- A distance function that is identically zero (used where the metric is
irrelevant). -/
def zeroDist : LatLon → LatLon → ℚ := fun _ _ => 0

/-- A database holding vehicle `v1` (range −25…−15, last update at 0) and
its active trip `t1` (planned end at 0, not yet ended, no recorded
average temperature), and nothing else. -/
def demoState : DataState :=
  { vehicles := [⟨"v1", -25, -15, 0⟩]
    trips := [⟨"t1", "v1", "active", 0, none, none⟩]
    sensorReadings := []
    alerts := []
    tripAlerts := []
    tripReadings := []
    vehicleRiskSnapshots := []
    tripRiskSnapshots := [] }

/-- One sensor reading that belongs to vehicle `v1` (its `vehicle_id` is
`v1`) and, like every real reading, has its own distinct UUID as `id`. -/
def c1State : DataState :=
  { emptyState with sensorReadings := [⟨"r1", "v1", -20, 50, 0, 0, 0⟩] }

/-- A completed trip `t1` that ended exactly on time, whose vehicle
reference resolves to nothing (so the default range −25…−15 applies), with
a recorded average temperature of −31°C. -/
def cexTripStateA : DataState :=
  { emptyState with trips := [⟨"t1", "ghost", "completed", 0, some 0, some (-31)⟩] }

/-- Identical to `cexTripStateA` except that the recorded average
temperature is −32°C. -/
def cexTripStateB : DataState :=
  { emptyState with trips := [⟨"t1", "ghost", "completed", 0, some 0, some (-32)⟩] }

/-- Eleven sensor readings of vehicle `v1` at distinct timestamps inside
the 6-hour window. -/
def stationaryState : DataState :=
  { emptyState with sensorReadings :=
      [⟨"r0", "v1", -20, 50, 0, 0, 0⟩, ⟨"r1", "v1", -20, 50, 0, 0, 1⟩,
       ⟨"r2", "v1", -20, 50, 0, 0, 2⟩, ⟨"r3", "v1", -20, 50, 0, 0, 3⟩,
       ⟨"r4", "v1", -20, 50, 0, 0, 4⟩, ⟨"r5", "v1", -20, 50, 0, 0, 5⟩,
       ⟨"r6", "v1", -20, 50, 0, 0, 6⟩, ⟨"r7", "v1", -20, 50, 0, 0, 7⟩,
       ⟨"r8", "v1", -20, 50, 0, 0, 8⟩, ⟨"r9", "v1", -20, 50, 0, 0, 9⟩,
       ⟨"ra", "v1", -20, 50, 0, 0, 10⟩] }

/-- A metric under which every hop measures 1/20 km, so the ten consecutive
hops of `stationaryState` accumulate to 0.5 km. -/
def hopDist : LatLon → LatLon → ℚ := fun _ _ => 1/20

/-- What `getVehicleRiskScore` returns on `demoState` at time 6000000
(100 minutes past the last update): no recent telemetry (5), no alerts (0),
100 minutes stale (20), no GPS data (5). -/
def demoVehicleResp : RiskScoreResponse :=
  ⟨30, .LOW, [.noRecentTelemetry, .staleData 100, .noGpsData]⟩

/-- What `getTripRiskForecast` returns on `demoState` at time 6000000:
no recorded average temperature (5), no violations (0), 100 minutes of
delay (20), no spikes (0); the predicted ETA is `planned_end` plus the
100-minute delay. -/
def demoTripResp : TripRiskForecastResponse :=
  ⟨25, .LOW, [.noTempReadings, .tripDelayed 100], 6000000, 100⟩

/-- What `getTripRiskForecast` returns on `cexTripStateA` at time 0: the
−31°C average is 6°C below the default −25°C floor (30 points), the trip
ended exactly on time. -/
def cexTripRespA : TripRiskForecastResponse :=
  ⟨30, .LOW, [.tempOutOfRange (-31) 6 (-25) (-15)], 0, 0⟩

/-! ## Arithmetic helper lemmas -/

theorem jsRound_nonneg {q : ℚ} (h : 0 ≤ q) : 0 ≤ jsRound q := by
  unfold jsRound
  exact Int.le_floor.mpr (by push_cast; linarith)

theorem jsRound_le_of_le {q : ℚ} {n : ℤ} (h : q ≤ (n : ℚ)) : jsRound q ≤ n := by
  unfold jsRound
  have hlt : q + 1/2 < ((n + 1 : ℤ) : ℚ) := by push_cast; linarith
  have := Int.floor_lt.mpr hlt
  omega

theorem jsRound_nonpos {q : ℚ} (h : q ≤ 0) : jsRound q ≤ 0 :=
  jsRound_le_of_le (by exact_mod_cast h)

theorem listMin_le (a : ℚ) (l : List ℚ) : listMin a l ≤ a := by
  induction l generalizing a with
  | nil => simp [listMin]
  | cons x xs ih =>
    calc listMin a (x :: xs) = listMin (min a x) xs := rfl
    _ ≤ min a x := ih (min a x)
    _ ≤ a := min_le_left a x

theorem le_listMax (a : ℚ) (l : List ℚ) : a ≤ listMax a l := by
  induction l generalizing a with
  | nil => simp [listMax]
  | cons x xs ih =>
    calc a ≤ max a x := le_max_left a x
    _ ≤ listMax (max a x) xs := ih (max a x)
    _ = listMax a (x :: xs) := rfl

theorem listMin_le_listMax (a : ℚ) (l : List ℚ) : listMin a l ≤ listMax a l :=
  le_trans (listMin_le a l) (le_listMax a l)

theorem pairwiseSum_nonneg (hav : LatLon → LatLon → ℚ)
    (h : ∀ p q, 0 ≤ hav p q) : ∀ l, 0 ≤ pairwiseSum hav l
  | [] => le_refl 0
  | [_] => le_refl 0
  | p :: q :: rest => by
    have hrest := pairwiseSum_nonneg hav h (q :: rest)
    simpa [pairwiseSum] using add_nonneg (h p q) hrest

/-! ## Per-factor score bounds (each factor stays within its cap) -/

theorem tempVarianceScore_bounds {variance : ℚ} (hv : 0 ≤ variance) (stdDevSq : ℚ) :
    0 ≤ tempVarianceScore variance stdDevSq ∧ tempVarianceScore variance stdDevSq ≤ 25 := by
  have h25 : 0 ≤ jsRound (variance / 10 * 25) := jsRound_nonneg (by positivity)
  have h15 : 0 ≤ jsRound (variance / 10 * 15) := jsRound_nonneg (by positivity)
  simp only [tempVarianceScore]
  split_ifs <;> constructor <;>
    first
      | omega
      | exact jsRound_le_of_le (by push_cast; linarith)

theorem calculateTempVariance_score_bounds (now : ℤ) (st : DataState) (vid : String) :
    0 ≤ (calculateTempVariance now st vid).score ∧
    (calculateTempVariance now st vid).score ≤ 25 := by
  simp only [calculateTempVariance]
  split
  · norm_num
  · next x t ts heq =>
      exact tempVarianceScore_bounds (sub_nonneg.mpr (listMin_le_listMax t ts)) _

theorem calculateAlertFactor_score_bounds (now : ℤ) (st : DataState) (vid : String) :
    0 ≤ (calculateAlertFactor now st vid).score ∧
    (calculateAlertFactor now st vid).score ≤ 30 := by
  simp only [calculateAlertFactor]
  exact ⟨Int.natCast_nonneg _, by exact_mod_cast Nat.min_le_right _ 30⟩

theorem calculateUpdateGap_score_bounds (now lastUpdate : ℤ) :
    0 ≤ (calculateUpdateGap now lastUpdate).score ∧
    (calculateUpdateGap now lastUpdate).score ≤ 20 := by
  simp only [calculateUpdateGap]
  split_ifs <;> constructor <;> norm_num

theorem distanceScore_bounds {d : ℚ} (hd : 0 ≤ d) (count : Nat) :
    0 ≤ distanceScore d count ∧ distanceScore d count ≤ 25 := by
  simp only [distanceScore]
  split_ifs with h500 h300 hst
  · norm_num
  · norm_num
  · norm_num
  · constructor
    · exact jsRound_nonneg (by linarith)
    · exact jsRound_le_of_le (by push_cast; linarith)

theorem calculateDistanceFactor_score_bounds (hav : LatLon → LatLon → ℚ)
    (hnn : ∀ p q, 0 ≤ hav p q) (now : ℤ) (st : DataState) (vid : String) :
    0 ≤ (calculateDistanceFactor hav now st vid).score ∧
    (calculateDistanceFactor hav now st vid).score ≤ 25 := by
  have hd := pairwiseSum_nonneg hav hnn (gpsPoints now st vid)
  simp only [calculateDistanceFactor]
  split_ifs
  · norm_num
  · norm_num
  · exact distanceScore_bounds hd _
  · exact distanceScore_bounds hd _
  · exact distanceScore_bounds hd _

theorem tempDeviationScore_bounds {deviation : ℚ} (hd : 0 ≤ deviation)
    (distToEdge range : ℚ) :
    0 ≤ tempDeviationScore deviation distToEdge range ∧
    tempDeviationScore deviation distToEdge range ≤ 30 := by
  simp only [tempDeviationScore]
  split_ifs with h0 hedge h5 h2
  · norm_num
  · norm_num
  · norm_num
  · constructor
    · exact jsRound_nonneg (by linarith)
    · exact jsRound_le_of_le (by push_cast; linarith)
  · constructor
    · exact jsRound_nonneg (by linarith)
    · exact jsRound_le_of_le (by push_cast; linarith)

theorem calculateTempDeviation_score_bounds (avgTemp : Option ℚ) (minT maxT : ℚ) :
    0 ≤ (calculateTempDeviation avgTemp minT maxT).score ∧
    (calculateTempDeviation avgTemp minT maxT).score ≤ 30 := by
  simp only [calculateTempDeviation]
  split
  · norm_num
  · rename_i avg
    apply tempDeviationScore_bounds
    split_ifs with ha hb
    · linarith
    · linarith
    · exact le_refl 0

theorem calculateViolationFactor_score_bounds (st : DataState) (tid : String) :
    0 ≤ (calculateViolationFactor st tid).score ∧
    (calculateViolationFactor st tid).score ≤ 25 := by
  simp only [calculateViolationFactor]
  exact ⟨Int.natCast_nonneg _, by exact_mod_cast Nat.min_le_right _ 25⟩

theorem delayScore_bounds (d : ℤ) : 0 ≤ delayScore d ∧ delayScore d ≤ 25 := by
  simp only [delayScore]
  split_ifs with h120 h60 h30 h10
  · norm_num
  · norm_num
  · norm_num
  · have hd0 : (0 : ℚ) ≤ (d : ℚ) := by exact_mod_cast (by omega : (0 : ℤ) ≤ d)
    have hd30 : ((d : ℤ) : ℚ) ≤ 30 := by exact_mod_cast (by omega : d ≤ (30 : ℤ))
    exact ⟨jsRound_nonneg (by linarith), jsRound_le_of_le (by push_cast; linarith)⟩
  · norm_num

theorem calculateDelayFactor_score_bounds (plannedEnd : ℤ) (actualEnd : Option ℤ)
    (status : String) (now : ℤ) :
    0 ≤ (calculateDelayFactor plannedEnd actualEnd status now).score ∧
    (calculateDelayFactor plannedEnd actualEnd status now).score ≤ 25 := by
  simp only [calculateDelayFactor]
  exact delayScore_bounds _

theorem spikeScore_bounds (c : Nat) (m : ℚ) :
    0 ≤ spikeScore c m ∧ spikeScore c m ≤ 20 := by
  have hj0 : 0 ≤ jsRound ((c : ℚ) / 5 * 10) := jsRound_nonneg (by positivity)
  simp only [spikeScore]
  split_ifs <;> constructor <;>
    first
      | omega
      | exact jsRound_le_of_le (by
          have hc : ((c : ℚ)) ≤ 5 := by exact_mod_cast (by omega : c ≤ 5)
          push_cast
          linarith)

theorem calculateTempSpikes_score_bounds (st : DataState) (tid : String) :
    0 ≤ (calculateTempSpikes st tid).score ∧ (calculateTempSpikes st tid).score ≤ 20 := by
  simp only [calculateTempSpikes]
  split_ifs
  · norm_num
  · exact spikeScore_bounds _ _
  · exact spikeScore_bounds _ _

/-! ## Claim theorems -/

/-- C5: the Risk Level Classifier maps every score to `LOW` if score < 34,
`MEDIUM` if 34 ≤ score < 67, and `HIGH` if score ≥ 67; in particular score 33
yields `LOW`, 34 yields `MEDIUM`, 66 yields `MEDIUM`, and 67 yields `HIGH`. -/
theorem scoreToLevel_thresholds :
    (∀ s : ℤ, s < 34 → scoreToLevel s = .LOW) ∧
    (∀ s : ℤ, 34 ≤ s → s < 67 → scoreToLevel s = .MEDIUM) ∧
    (∀ s : ℤ, 67 ≤ s → scoreToLevel s = .HIGH) ∧
    scoreToLevel 33 = .LOW ∧ scoreToLevel 34 = .MEDIUM ∧
    scoreToLevel 66 = .MEDIUM ∧ scoreToLevel 67 = .HIGH := by
  refine ⟨?_, ?_, ?_, by decide, by decide, by decide, by decide⟩
  · intro s h
    unfold scoreToLevel
    rw [if_neg (by omega), if_neg (by omega)]
  · intro s h1 h2
    unfold scoreToLevel
    rw [if_neg (by omega), if_pos (by omega)]
  · intro s h
    unfold scoreToLevel
    rw [if_pos h]

/-- C5 witness: the classifier evaluated at 10, 50 and 80 through
`scoreToLevel_thresholds`. -/
theorem scoreToLevel_thresholds_witness :
    scoreToLevel 10 = .LOW ∧ scoreToLevel 50 = .MEDIUM ∧ scoreToLevel 80 = .HIGH :=
  ⟨scoreToLevel_thresholds.1 10 (by decide),
   scoreToLevel_thresholds.2.1 50 (by decide) (by decide),
   scoreToLevel_thresholds.2.2.1 80 (by decide)⟩

/-- C10: the Data Staleness Factor is monotone in the gap since the last
update, and for every last update at most 5 minutes in the past — including
future timestamps, i.e. a negative gap — it contributes 0 points and emits
no reason. -/
theorem calculateUpdateGap_monotone_and_fresh :
    (∀ now1 last1 now2 last2 : ℤ, now1 - last1 ≤ now2 - last2 →
      (calculateUpdateGap now1 last1).score ≤ (calculateUpdateGap now2 last2).score) ∧
    (∀ now lastUpdate : ℤ, now - lastUpdate ≤ 5 * 60 * 1000 →
      calculateUpdateGap now lastUpdate = ⟨0, none⟩) := by
  constructor
  · intro now1 last1 now2 last2 h
    have hg : ((now1 - last1 : ℤ) : ℚ) / (1000 * 60) ≤ ((now2 - last2 : ℤ) : ℚ) / (1000 * 60) := by
      apply div_le_div_of_nonneg_right ?_ (by norm_num)
      exact_mod_cast h
    simp only [calculateUpdateGap]
    split_ifs <;> simp_all <;> linarith
  · intro now lastUpdate h
    have hcast : ((now - lastUpdate : ℤ) : ℚ) ≤ 300000 := by
      exact_mod_cast (by linarith : now - lastUpdate ≤ (300000 : ℤ))
    have hq : ((now - lastUpdate : ℤ) : ℚ) / (1000 * 60) ≤ 5 := by
      rw [div_le_iff₀ (by norm_num)]
      linarith
    simp only [calculateUpdateGap]
    split_ifs <;> first | rfl | (exfalso; linarith)

/-- C10 witness: `calculateUpdateGap_monotone_and_fresh` applied at gap 0
versus a 61-minute gap, and at a fresh update. -/
theorem calculateUpdateGap_monotone_and_fresh_witness :
    (calculateUpdateGap 0 0).score ≤ (calculateUpdateGap 3660000 0).score ∧
    calculateUpdateGap 0 0 = ⟨0, none⟩ :=
  ⟨calculateUpdateGap_monotone_and_fresh.1 0 0 3660000 0 (by decide),
   calculateUpdateGap_monotone_and_fresh.2 0 0 (by decide)⟩

/-- C1: the Temperature Variance Factor does not aggregate the sensor
readings belonging to the given vehicle: its `$match` stage filters on the
reading's own `id` field rather than the `vehicle_id` reference. For vehicle
`v1` with one reading inside the 6-hour window (`c1State`), the source
returns the 5-point "no recent telemetry" default, while the statistics over
the vehicle's readings (`tempVarianceByVehicleRef`, as the claim words the
factor) give range 0, standard deviation 0, score 0 and no reason. -/
theorem calculateTempVariance_filters_on_reading_id :
    calculateTempVariance 0 c1State "v1" = ⟨5, some .noRecentTelemetry⟩ ∧
    tempVarianceByVehicleRef 0 c1State "v1" = ⟨0, none⟩ ∧
    (c1State.sensorReadings.filter
      (fun r => r.vehicle_id == "v1" && (0 - sixHoursMs) ≤ r.timestamp)).length = 1 := by
  refine ⟨?_, ?_, ?_⟩ <;>
    simp +decide [calculateTempVariance, tempVarianceByVehicleRef, c1State, emptyState,
      sixHoursMs, List.filter_cons, listMin, listMax, popVariance, tempVarianceScore,
      jsRound] <;>
    norm_num

/-- C3: an unknown vehicle id and an unknown trip id make
`getVehicleRiskScore` / `getTripRiskForecast` fail with `NotFound`, and the
database — in particular both snapshot logs — is left unchanged. -/
theorem riskScore_notFound_leaves_state_unchanged :
    ∀ (hav : LatLon → LatLon → ℚ) (now : ℤ) (freshId : String) (st : DataState)
      (vehicleId tripId : String),
    (st.vehicles.find? (fun v => v.visibleId == vehicleId) = none →
      getVehicleRiskScore hav now freshId st vehicleId = (.error .notFound, st)) ∧
    (st.trips.find? (fun t => t.visibleId == tripId) = none →
      getTripRiskForecast now freshId st tripId = (.error .notFound, st)) := by
  intro hav now freshId st vehicleId tripId
  constructor
  · intro h
    unfold getVehicleRiskScore
    rw [h]
  · intro h
    unfold getTripRiskForecast
    rw [h]

/-- C3 witness: `riskScore_notFound_leaves_state_unchanged` applied to the
empty database, where no id matches. -/
theorem riskScore_notFound_leaves_state_unchanged_witness :
    getVehicleRiskScore zeroDist 0 "w" emptyState "missing" = (.error .notFound, emptyState) ∧
    getTripRiskForecast 0 "w" emptyState "missing" = (.error .notFound, emptyState) :=
  ⟨(riskScore_notFound_leaves_state_unchanged zeroDist 0 "w" emptyState "missing" "missing").1 rfl,
   (riskScore_notFound_leaves_state_unchanged zeroDist 0 "w" emptyState "missing" "missing").2 rfl⟩

/-- C4: for every vehicle and trip and every underlying data state, the
total score returned by `getVehicleRiskScore` / `getTripRiskForecast` is an
integer (it lives in ℤ) with 0 ≤ score ≤ 100: every factor is non-negative
and individually capped, and the sum is capped at 100. The vehicle pipeline
is quantified over any non-negative distance metric, which the Haversine
great-circle distance is. -/
theorem riskScore_bounded_0_100 :
    ∀ (hav : LatLon → LatLon → ℚ) (now : ℤ) (freshId : String) (st : DataState)
      (vehicleId tripId : String) (respV : RiskScoreResponse)
      (respT : TripRiskForecastResponse),
    (∀ p q, 0 ≤ hav p q) →
    ((getVehicleRiskScore hav now freshId st vehicleId).1.toOption = some respV →
      0 ≤ respV.score ∧ respV.score ≤ 100) ∧
    ((getTripRiskForecast now freshId st tripId).1.toOption = some respT →
      0 ≤ respT.score ∧ respT.score ≤ 100) := by
  intro hav now freshId st vehicleId tripId respV respT hnn
  constructor
  · intro h
    unfold getVehicleRiskScore at h
    rcases hfind : st.vehicles.find? (fun v => v.visibleId == vehicleId) with _ | vehicle
    · rw [hfind] at h
      simp [Except.toOption] at h
    · rw [hfind] at h
      simp only [Except.toOption, Option.some.injEq] at h
      subst h
      obtain ⟨a1, a2⟩ := calculateTempVariance_score_bounds now st vehicleId
      obtain ⟨b1, b2⟩ := calculateAlertFactor_score_bounds now st vehicleId
      obtain ⟨c1, c2⟩ := calculateUpdateGap_score_bounds now vehicle.last_update
      obtain ⟨d1, d2⟩ := calculateDistanceFactor_score_bounds hav hnn now st vehicleId
      simp only [vehicleRiskCore]
      constructor
      · exact le_min (by omega) (by omega)
      · exact min_le_right _ _
  · intro h
    unfold getTripRiskForecast at h
    rcases hfind : st.trips.find? (fun t => t.visibleId == tripId) with _ | trip
    · rw [hfind] at h
      simp [Except.toOption] at h
    · rw [hfind] at h
      simp only [Except.toOption, Option.some.injEq] at h
      subst h
      obtain ⟨a1, a2⟩ := calculateTempDeviation_score_bounds trip.avg_temp_recorded
        (((st.vehicles.find? (fun v => v.visibleId == trip.vehicle_id)).map
          (fun v => v.min_temp)).getD (-25))
        (((st.vehicles.find? (fun v => v.visibleId == trip.vehicle_id)).map
          (fun v => v.max_temp)).getD (-15))
      obtain ⟨b1, b2⟩ := calculateViolationFactor_score_bounds st tripId
      obtain ⟨c1, c2⟩ := calculateDelayFactor_score_bounds trip.planned_end
        trip.actual_end trip.status now
      obtain ⟨d1, d2⟩ := calculateTempSpikes_score_bounds st tripId
      simp only [tripForecastCore]
      constructor
      · exact le_min (by omega) (by omega)
      · exact min_le_right _ _

/-- C4 witness: `riskScore_bounded_0_100` applied to `demoState` at time
6000000 with the zero metric, where the vehicle call returns score 30 and
the trip call returns score 25. -/
theorem riskScore_bounded_0_100_witness :
    (0 ≤ demoVehicleResp.score ∧ demoVehicleResp.score ≤ 100) ∧
    (0 ≤ demoTripResp.score ∧ demoTripResp.score ≤ 100) :=
  ⟨(riskScore_bounded_0_100 zeroDist 6000000 "a" demoState "v1" "t1"
      demoVehicleResp demoTripResp (fun _ _ => le_refl 0)).1
    (by norm_num [getVehicleRiskScore, vehicleRiskCore, demoState, demoVehicleResp,
      calculateTempVariance, calculateAlertFactor, calculateUpdateGap,
      calculateDistanceFactor, gpsPoints, tempVarianceScore, distanceScore,
      scoreToLevel, jsRound, sixHoursMs, twentyFourHoursMs, List.find?,
      Except.toOption, zeroDist, sortByKey, insertByKey, pairwiseSum,
      listMin, listMax, popVariance, emptyState] <;>
      simp [List.filterMap]),
   (riskScore_bounded_0_100 zeroDist 6000000 "a" demoState "v1" "t1"
      demoVehicleResp demoTripResp (fun _ _ => le_refl 0)).2
    (by norm_num [getTripRiskForecast, tripForecastCore, demoState, demoTripResp,
      calculateTempDeviation, calculateViolationFactor, calculateDelayFactor,
      calculateTempSpikes, tempDeviationScore, delayScore, spikeScore,
      scoreToLevel, jsRound, List.find?, Except.toOption, sortByKey,
      insertByKey, consecutiveDiffs, emptyState] <;>
      simp [List.filterMap])⟩

/-- How the reason of the Movement Anomaly Factor, computed in the source
from score thresholds, lines up with the scoring branches: 25 and 15 carry
the "unusual distance" reason, the stationary branch carries the
"stationary" reason, and the interpolated branch (at most 6 points) carries
none. -/
theorem distanceFactor_branch (d : ℚ) (n : Nat) :
    (⟨distanceScore d n,
      if 15 ≤ distanceScore d n then some (Reason.unusualDistance d)
      else if 10 ≤ distanceScore d n then some Reason.stationaryVehicle
      else none⟩ : FactorResult) =
    (if 500 < d then ⟨25, some (.unusualDistance d)⟩
     else if 300 < d then ⟨15, some (.unusualDistance d)⟩
     else if d < 1 ∧ 10 < n then ⟨10, some .stationaryVehicle⟩
     else ⟨jsRound (d / 500 * 10), none⟩) := by
  by_cases h500 : 500 < d
  · norm_num [distanceScore, h500]
  · by_cases h300 : 300 < d
    · norm_num [distanceScore, h500, h300]
    · by_cases hst : d < 1 ∧ 10 < n
      · norm_num [distanceScore, h500, h300, hst]
      · have hj : jsRound (d / 500 * 10) ≤ 6 :=
          jsRound_le_of_le (by push_cast; linarith [not_lt.mp h300])
        simp only [distanceScore, if_neg h500, if_neg h300, if_neg hst]
        rw [if_neg (by omega), if_neg (by omega)]

/-- C6: the Delay Factor's delay is, for an active trip, the rounded minutes
of `max 0 (now − planned_end)`; otherwise the rounded gap `actual_end −
planned_end` when `actual_end` exists and exceeds `planned_end`, else 0. Its
score is 25 / 20 / 15 / round(delay/60·15) / 0 at the thresholds
120 / 60 / 30 / 10, and a reason is emitted iff delay > 0. In particular a
completed trip with `actual_end = planned_end` yields delay 0, score 0 and
no reason. -/
theorem calculateDelayFactor_spec :
    (∀ (plannedEnd : ℤ) (actualEnd : Option ℤ) (status : String) (now : ℤ),
      (calculateDelayFactor plannedEnd actualEnd status now).delayMinutes =
        (if status == "active" then
          max 0 (jsRound (((now - plannedEnd : ℤ) : ℚ) / (1000 * 60)))
        else
          match actualEnd with
          | some ae =>
            if plannedEnd < ae then jsRound (((ae - plannedEnd : ℤ) : ℚ) / (1000 * 60))
            else 0
          | none => 0) ∧
      (calculateDelayFactor plannedEnd actualEnd status now).score =
        (if 120 < (calculateDelayFactor plannedEnd actualEnd status now).delayMinutes then 25
         else if 60 < (calculateDelayFactor plannedEnd actualEnd status now).delayMinutes then 20
         else if 30 < (calculateDelayFactor plannedEnd actualEnd status now).delayMinutes then 15
         else if 10 < (calculateDelayFactor plannedEnd actualEnd status now).delayMinutes then
           jsRound (((calculateDelayFactor plannedEnd actualEnd status now).delayMinutes : ℚ) / 60 * 15)
         else 0) ∧
      (calculateDelayFactor plannedEnd actualEnd status now).reason =
        (if 0 < (calculateDelayFactor plannedEnd actualEnd status now).delayMinutes then
          some (.tripDelayed (calculateDelayFactor plannedEnd actualEnd status now).delayMinutes)
        else none)) ∧
    (∀ plannedEnd now : ℤ,
      calculateDelayFactor plannedEnd (some plannedEnd) "completed" now = ⟨0, none, 0⟩) := by
  constructor
  · intro plannedEnd actualEnd status now
    refine ⟨?_, rfl, rfl⟩
    simp only [calculateDelayFactor]
    cases hst : status == "active"
    · simp
    · simp only [if_pos rfl]
      by_cases hlt : plannedEnd < now
      · rw [if_pos hlt]
        have h0 : (0 : ℚ) ≤ ((now - plannedEnd : ℤ) : ℚ) / (1000 * 60) := by
          have : (0 : ℚ) ≤ ((now - plannedEnd : ℤ) : ℚ) := by
            exact_mod_cast (by omega : (0 : ℤ) ≤ now - plannedEnd)
          linarith
        exact (max_eq_right (jsRound_nonneg h0)).symm
      · rw [if_neg hlt]
        have h0 : ((now - plannedEnd : ℤ) : ℚ) / (1000 * 60) ≤ 0 := by
          have : ((now - plannedEnd : ℤ) : ℚ) ≤ 0 := by
            exact_mod_cast (by omega : now - plannedEnd ≤ (0 : ℤ))
          linarith
        exact (max_eq_left (jsRound_nonpos h0)).symm
  · intro plannedEnd now
    simp [calculateDelayFactor, delayScore]

/-- C7: the Movement Anomaly Factor over the up-to-500 time-ascending GPS
points of the trailing 6 hours: fewer than 2 points score 5 with the
"no GPS data" reason exactly when there are zero points; otherwise 25 with
the "unusual distance" reason if the cumulative pairwise distance exceeds
500 km, 15 likewise above 300 km, 10 with the "stationary" reason when the
distance is below 1 km over more than 10 readings, else
round(distance/500·10) with no reason. In particular eleven readings
spanning 0.5 km yield score 10 with the "stationary" reason, and an empty
reading set yields 5 with the "no GPS data" reason. -/
theorem calculateDistanceFactor_spec :
    (∀ (hav : LatLon → LatLon → ℚ) (now : ℤ) (st : DataState) (vehicleId : String),
      calculateDistanceFactor hav now st vehicleId =
        (if (gpsPoints now st vehicleId).length < 2 then
          ⟨5, if (gpsPoints now st vehicleId).length = 0 then some .noGpsData else none⟩
        else if 500 < pairwiseSum hav (gpsPoints now st vehicleId) then
          ⟨25, some (.unusualDistance (pairwiseSum hav (gpsPoints now st vehicleId)))⟩
        else if 300 < pairwiseSum hav (gpsPoints now st vehicleId) then
          ⟨15, some (.unusualDistance (pairwiseSum hav (gpsPoints now st vehicleId)))⟩
        else if pairwiseSum hav (gpsPoints now st vehicleId) < 1 ∧
            10 < (gpsPoints now st vehicleId).length then
          ⟨10, some .stationaryVehicle⟩
        else ⟨jsRound (pairwiseSum hav (gpsPoints now st vehicleId) / 500 * 10), none⟩)) ∧
    calculateDistanceFactor hopDist 0 stationaryState "v1" = ⟨10, some .stationaryVehicle⟩ ∧
    (gpsPoints 0 stationaryState "v1").length = 11 ∧
    pairwiseSum hopDist (gpsPoints 0 stationaryState "v1") = 1/2 ∧
    calculateDistanceFactor zeroDist 0 emptyState "v1" = ⟨5, some .noGpsData⟩ := by
  have huniv : ∀ (hav : LatLon → LatLon → ℚ) (now : ℤ) (st : DataState)
      (vehicleId : String),
      calculateDistanceFactor hav now st vehicleId =
        (if (gpsPoints now st vehicleId).length < 2 then
          ⟨5, if (gpsPoints now st vehicleId).length = 0 then some .noGpsData else none⟩
        else if 500 < pairwiseSum hav (gpsPoints now st vehicleId) then
          ⟨25, some (.unusualDistance (pairwiseSum hav (gpsPoints now st vehicleId)))⟩
        else if 300 < pairwiseSum hav (gpsPoints now st vehicleId) then
          ⟨15, some (.unusualDistance (pairwiseSum hav (gpsPoints now st vehicleId)))⟩
        else if pairwiseSum hav (gpsPoints now st vehicleId) < 1 ∧
            10 < (gpsPoints now st vehicleId).length then
          ⟨10, some .stationaryVehicle⟩
        else ⟨jsRound (pairwiseSum hav (gpsPoints now st vehicleId) / 500 * 10), none⟩) := by
    intro hav now st vehicleId
    by_cases h2 : (gpsPoints now st vehicleId).length < 2
    · simp only [calculateDistanceFactor, if_pos h2]
      simp [beq_iff_eq]
    · simp only [calculateDistanceFactor, if_neg h2]
      exact distanceFactor_branch _ _
  refine ⟨huniv, ?_, ?_, ?_, ?_⟩
  · rw [huniv]
    have hlen : (gpsPoints 0 stationaryState "v1").length = 11 := by
      simp +decide [gpsPoints, stationaryState, emptyState, sortByKey, insertByKey,
        sixHoursMs]
    have hd : pairwiseSum hopDist (gpsPoints 0 stationaryState "v1") = 1/2 := by
      simp +decide [gpsPoints, stationaryState, emptyState, sortByKey, insertByKey,
        sixHoursMs, pairwiseSum, hopDist]
      norm_num
    rw [if_neg (by omega), if_neg (by norm_num [hd]), if_neg (by norm_num [hd]),
      if_pos (by exact ⟨by norm_num [hd], by omega⟩)]
  · simp +decide [gpsPoints, stationaryState, emptyState, sortByKey, insertByKey,
      sixHoursMs]
  · simp +decide [gpsPoints, stationaryState, emptyState, sortByKey, insertByKey,
      sixHoursMs, pairwiseSum, hopDist]
    norm_num
  · simp [calculateDistanceFactor, gpsPoints, emptyState, sortByKey]

/-- C2 counterexample: two data states (`cexTripStateA`, `cexTripStateB`)
whose forecasts return different reason lists yet append identical trip
snapshots — the persisted trip snapshot has no `reasons` field, so it cannot
retain the ordered list of reasons. -/
theorem tripSnapshot_does_not_retain_reasons :
    (getTripRiskForecast 0 "s1" cexTripStateA "t1").1.toOption.map
        (fun r => r.reasons) ≠
      (getTripRiskForecast 0 "s1" cexTripStateB "t1").1.toOption.map
        (fun r => r.reasons) ∧
    (getTripRiskForecast 0 "s1" cexTripStateA "t1").2.tripRiskSnapshots =
      (getTripRiskForecast 0 "s1" cexTripStateB "t1").2.tripRiskSnapshots := by
  constructor <;>
    norm_num [getTripRiskForecast, tripForecastCore, cexTripStateA, cexTripStateB,
      emptyState, calculateTempDeviation, tempDeviationScore, calculateViolationFactor,
      calculateDelayFactor, delayScore, calculateTempSpikes, scoreToLevel, jsRound,
      List.find?, Except.toOption, sortByKey, consecutiveDiffs, spikeScore,
      List.filterMap]

/-- C2 amended: for every successful trip forecast, the appended trip
RiskSnapshot retains the subject id, score, level, predicted completion
time, expected delay minutes and calculated-at timestamp — but not the
reason list, which is only returned to the caller. -/
theorem getTripRiskForecast_persists_snapshot :
    ∀ (now : ℤ) (freshId : String) (st : DataState) (tripId : String)
      (resp : TripRiskForecastResponse),
    (getTripRiskForecast now freshId st tripId).1.toOption = some resp →
    (getTripRiskForecast now freshId st tripId).2.tripRiskSnapshots =
      st.tripRiskSnapshots ++
        [{ visibleId := freshId, trip_id := tripId, score := resp.score,
           level := resp.level, predicted_eta := resp.predicted_eta,
           expected_delay_minutes := resp.expected_delay_minutes,
           calculated_at := now }] := by
  intro now freshId st tripId resp h
  unfold getTripRiskForecast at h ⊢
  rcases hfind : st.trips.find? (fun t => t.visibleId == tripId) with _ | trip
  · rw [hfind] at h
    simp [Except.toOption] at h
  · rw [hfind] at h ⊢
    simp only [Except.toOption, Option.some.injEq] at h
    subst h
    rfl

/-- C2 witness: `getTripRiskForecast_persists_snapshot` applied to
`cexTripStateA`, whose forecast succeeds with `cexTripRespA`. -/
theorem getTripRiskForecast_persists_snapshot_witness :
    (getTripRiskForecast 0 "s1" cexTripStateA "t1").2.tripRiskSnapshots =
      cexTripStateA.tripRiskSnapshots ++
        [{ visibleId := "s1", trip_id := "t1", score := cexTripRespA.score,
           level := cexTripRespA.level, predicted_eta := cexTripRespA.predicted_eta,
           expected_delay_minutes := cexTripRespA.expected_delay_minutes,
           calculated_at := 0 }] :=
  getTripRiskForecast_persists_snapshot 0 "s1" cexTripStateA "t1" cexTripRespA
    (by norm_num [getTripRiskForecast, tripForecastCore, cexTripStateA, cexTripRespA,
      emptyState, calculateTempDeviation, tempDeviationScore, calculateViolationFactor,
      calculateDelayFactor, delayScore, calculateTempSpikes, scoreToLevel, jsRound,
      List.find?, Except.toOption, sortByKey, consecutiveDiffs, spikeScore,
      List.filterMap])

/-- C8: for every trip that is found, the returned expected delay is the
delay factor's raw delay in minutes, the returned projected completion time
is `planned_end + delayMinutes` (in etc. milliseconds) when the trip is
active, otherwise `actual_end` when present, otherwise `planned_end`, and
exactly that time is persisted in the appended snapshot. -/
theorem predictedEta_formula :
    ∀ (now : ℤ) (freshId : String) (st : DataState) (tripId : String)
      (trip : Trip) (resp : TripRiskForecastResponse),
    st.trips.find? (fun t => t.visibleId == tripId) = some trip →
    (getTripRiskForecast now freshId st tripId).1.toOption = some resp →
    resp.expected_delay_minutes =
      (calculateDelayFactor trip.planned_end trip.actual_end trip.status now).delayMinutes ∧
    resp.predicted_eta =
      (if trip.status == "active" then
        trip.planned_end + resp.expected_delay_minutes * 60 * 1000
      else
        match trip.actual_end with
        | some ae => ae
        | none => trip.planned_end) ∧
    (getTripRiskForecast now freshId st tripId).2.tripRiskSnapshots.map
        (fun s => s.predicted_eta) =
      st.tripRiskSnapshots.map (fun s => s.predicted_eta) ++ [resp.predicted_eta] := by
  intro now freshId st tripId trip resp hfind h
  unfold getTripRiskForecast at h ⊢
  rw [hfind] at h ⊢
  simp only [Except.toOption, Option.some.injEq] at h
  subst h
  refine ⟨rfl, rfl, ?_⟩
  simp [tripForecastCore, List.map_append]

/-- C8 witness: `predictedEta_formula` applied to the active demo trip at
time 6000000, 100 minutes past its planned end. -/
theorem predictedEta_formula_witness :
    demoTripResp.expected_delay_minutes =
      (calculateDelayFactor (0 : ℤ) none "active" 6000000).delayMinutes ∧
    demoTripResp.predicted_eta =
      (if ("active" : String) == "active" then
        (0 : ℤ) + demoTripResp.expected_delay_minutes * 60 * 1000
      else
        match (none : Option ℤ) with
        | some ae => ae
        | none => (0 : ℤ)) ∧
    (getTripRiskForecast 6000000 "a" demoState "t1").2.tripRiskSnapshots.map
        (fun s => s.predicted_eta) =
      demoState.tripRiskSnapshots.map (fun s => s.predicted_eta) ++
        [demoTripResp.predicted_eta] :=
  predictedEta_formula 6000000 "a" demoState "t1" ⟨"t1", "v1", "active", 0, none, none⟩
    demoTripResp
    (by simp +decide [demoState, List.find?])
    (by norm_num [getTripRiskForecast, tripForecastCore, demoState, demoTripResp,
      emptyState, calculateTempDeviation, tempDeviationScore, calculateViolationFactor,
      calculateDelayFactor, delayScore, calculateTempSpikes, scoreToLevel, jsRound,
      List.find?, Except.toOption, sortByKey, consecutiveDiffs, spikeScore,
      List.filterMap])

/-- C9 counterexample: at the same clock reading against the same data,
two invocations (differing only in the generated snapshot id) return
identical responses and append snapshots with identical calculated-at
timestamps — yet the snapshots still differ, namely in their fresh
`visibleId`, so they do not differ *only* in the calculated-at timestamp. -/
theorem vehicleRisk_snapshots_differ_beyond_timestamp :
    (getVehicleRiskScore zeroDist 0 "a" demoState "v1").1 =
      (getVehicleRiskScore zeroDist 0 "b" demoState "v1").1 ∧
    (getVehicleRiskScore zeroDist 0 "a" demoState "v1").2.vehicleRiskSnapshots.map
        (fun s => s.calculated_at) =
      (getVehicleRiskScore zeroDist 0 "b" demoState "v1").2.vehicleRiskSnapshots.map
        (fun s => s.calculated_at) ∧
    (getVehicleRiskScore zeroDist 0 "a" demoState "v1").2.vehicleRiskSnapshots.map
        (fun s => s.visibleId) ≠
      (getVehicleRiskScore zeroDist 0 "b" demoState "v1").2.vehicleRiskSnapshots.map
        (fun s => s.visibleId) := by
  refine ⟨rfl, rfl, ?_⟩
  simp [getVehicleRiskScore, vehicleRiskCore, demoState, emptyState, List.find?]

/-- C9 amended: `getVehicleRiskScore` is deterministic — for the same data
state, clock reading and metric, two invocations return the same response
(score, level and reasons included), and the appended snapshots agree on
every field other than the freshly generated snapshot id. -/
theorem getVehicleRiskScore_deterministic :
    ∀ (hav : LatLon → LatLon → ℚ) (now : ℤ) (st : DataState) (vehicleId : String)
      (u1 u2 : String),
    (getVehicleRiskScore hav now u1 st vehicleId).1 =
      (getVehicleRiskScore hav now u2 st vehicleId).1 ∧
    (getVehicleRiskScore hav now u1 st vehicleId).2.vehicleRiskSnapshots.map
        (fun s => (s.vehicle_id, s.score, s.level, s.reasons, s.calculated_at)) =
      (getVehicleRiskScore hav now u2 st vehicleId).2.vehicleRiskSnapshots.map
        (fun s => (s.vehicle_id, s.score, s.level, s.reasons, s.calculated_at)) := by
  intro hav now st vehicleId u1 u2
  unfold getVehicleRiskScore
  rcases hfind : st.vehicles.find? (fun v => v.visibleId == vehicleId) with _ | v
  · rw [hfind]
    exact ⟨rfl, rfl⟩
  · rw [hfind]
    exact ⟨rfl, by simp [vehicleRiskCore, List.map_append]⟩

end CryoCommand
